import Mathlib

/-!
Shallow embedding of the conversion orchestration module of
lerobotlab-tools (`src/lerobotlab/convert.py`), together with theorems
about its behaviour.

Modelling choices:
- Filesystem paths are lists of components (`FPath`); the filesystem is an
  oracle (`FS`) answering the read-only queries the code performs
  (`Path.exists`, `os.access(..., os.W_OK)`).
- Python exceptions raised inside the orchestrator are an inductive `Exn`
  with one constructor per raise site kind: `click.ClickException`,
  `KeyError` (from `dataset['repo_id']` / `dataset['selected_videos']` on a
  dict lacking the key), and an arbitrary exception raised by a converter
  collaborator outside its result contract.
- The two converter collaborators (`DROIDConverter`, `VJEPA2ACConverter`)
  are external to the excerpt; their `convert_dataset` method is modelled
  as a behaviour oracle that either returns a result dict or raises.
- Observable effects of a run are a trace of `Event`s: the output-directory
  creation (`output_dir.mkdir(parents=True, exist_ok=True)`), each
  `converter.convert_dataset(...)` invocation with its arguments, and (as a
  possible but never emitted action) removal of a directory tree. Console
  output (`click.echo`) is not part of the trace; it carries no data the
  theorems below are about.
-/

deriving instance DecidableEq for Except

/-- A filesystem path, as its list of components. -/
abbrev FPath := List String

/-- `Path.parent`: the path with its last component removed. -/
def FPath.parent (p : FPath) : FPath := p.dropLast

/-- Rendering of a path into a message string (used in f-strings). -/
def FPath.render (p : FPath) : String := String.intercalate "/" p

/-- The read-only filesystem queries the module performs. -/
structure FS where
  dirExists : FPath → Bool
  writable : FPath → Bool

/-- Python exceptions arising inside the orchestrator. -/
inductive Exn where
  | clickException (message : String)
  | keyError (key : String)
  | pythonError (message : String)
deriving DecidableEq, Repr

/-- The string interpolation `f"{e}"` applied to an exception: a
`KeyError` renders as its quoted key, the others as their message. -/
def Exn.message : Exn → String
  | .clickException m => m
  | .keyError k => "\x27" ++ k ++ "\x27"
  | .pythonError m => m

/-- The result dict of `converter.convert_dataset`:
`{status, message, episodes_converted?}`. -/
structure ConversionResult where
  status : String
  message : String
  episodes_converted : Option Nat
deriving DecidableEq, Repr

/-- Outcome of one `convert_dataset` call: it returns a result dict, or it
raises (outside its documented contract). -/
inductive ConvOutcome where
  | returns (result : ConversionResult)
  | raises (message : String)
deriving DecidableEq, Repr

/-- The two converter classes the factory can instantiate. -/
inductive ConverterKind where
  | droid
  | vjepa2_ac
deriving DecidableEq, Repr

/-- Behaviour oracle for the external converter collaborators:
given the converter kind and the arguments of
`convert_dataset(repo_id, selected_videos, input_dir, output_dir)`,
what the call does. -/
abbrev ConverterBehavior :=
  ConverterKind → String → List String → FPath → FPath → ConvOutcome

/-- One entry of the selection document's `datasets` array. A field is
`none` when the key is absent from the dict. -/
structure DatasetEntry where
  repo_id : Option String
  selected_videos : Option (List String)
deriving DecidableEq, Repr

/-- The selection document's optional `metadata` object (only the fields
the module reads). -/
structure Metadata where
  total_episodes : Option Nat
  total_frames : Option Nat
deriving DecidableEq, Repr

/-- The selection document. A field is `none` when the key is absent;
the code reads both through `.get(key, default)`. -/
structure SelectionDocument where
  metadata : Option Metadata
  datasets : Option (List DatasetEntry)
deriving DecidableEq, Repr

/-- `get_supported_formats()`. -/
def get_supported_formats : List String := ["droid", "vjepa2-ac"]

/-- `_get_converter(format, verbose)`: factory dispatch on the exact
format string; raises `click.ClickException` otherwise. The message
interpolates the Python list literal `['droid', 'vjepa2-ac']`. -/
def get_converter (format : String) : Except Exn ConverterKind :=
  if format = "droid" then .ok .droid
  else if format = "vjepa2-ac" then .ok .vjepa2_ac
  else .error (.clickException ("Unsupported format: " ++ format ++
    ". Supported formats: [\x27droid\x27, \x27vjepa2-ac\x27]"))

/-- Observable filesystem/collaborator actions of a run. `removeTree` is in
the alphabet so that absence of any cleanup action is expressible; the
source's cleanup branch only prints a message when verbose and performs no
removal. -/
inductive Event where
  | mkdir (path : FPath)
  | convertCall (repo_id : String) (selected_videos : List String)
      (input_dir : FPath) (output_dir : FPath)
  | removeTree (path : FPath)
deriving DecidableEq, Repr

/-- The per-dataset loop of `convert_datasets` (lines 54-80): for each
entry, read `dataset['repo_id']` and `dataset['selected_videos']`
(a missing key raises `KeyError`), resolve the converter through the
factory, and invoke `convert_dataset`. A result with
`status == 'error'` only changes what is echoed; the loop continues.
Returns the events emitted and the exception, if one was raised. -/
def process_datasets (conv : ConverterBehavior) (format : String)
    (input_dir output_dir : FPath) :
    List DatasetEntry → List Event × Option Exn
  | [] => ([], none)
  | dataset :: rest =>
    match dataset.repo_id with
    | none => ([], some (.keyError "repo_id"))
    | some repo_id =>
      match dataset.selected_videos with
      | none => ([], some (.keyError "selected_videos"))
      | some selected_videos =>
        match get_converter format with
        | .error e => ([], some e)
        | .ok kind =>
          match conv kind repo_id selected_videos input_dir output_dir with
          | .raises m =>
            ([.convertCall repo_id selected_videos input_dir output_dir],
             some (.pythonError m))
          | .returns _result =>
            let next := process_datasets conv format input_dir output_dir rest
            (.convertCall repo_id selected_videos input_dir output_dir :: next.1,
             next.2)

/-- Default of the `format` parameter of `convert_datasets`. -/
def convert_datasets_default_format : String := "hdf5"

/-- The body of the `try` block of `convert_datasets`: create the output
directory, resolve the input directory (`temp_downloads` under the output
directory when `input_path` is absent; otherwise the given path, which
must exist), read `datasets` with default `[]`, run the loop. The cleanup
branch after the loop only echoes when verbose and emits no action. -/
def convert_datasets_inner (fs : FS) (conv : ConverterBehavior)
    (selection_data : SelectionDocument) (output_path : FPath)
    (input_path : Option FPath) (format : String) :
    List Event × Option Exn :=
  let output_dir := output_path
  match input_path with
  | none =>
    let input_dir := output_dir ++ ["temp_downloads"]
    let datasets := selection_data.datasets.getD []
    let body := process_datasets conv format input_dir output_dir datasets
    (Event.mkdir output_dir :: body.1, body.2)
  | some p =>
    if fs.dirExists p then
      let datasets := selection_data.datasets.getD []
      let body := process_datasets conv format p output_dir datasets
      (Event.mkdir output_dir :: body.1, body.2)
    else
      ([Event.mkdir output_dir],
       some (.clickException ("Input directory does not exist: " ++ FPath.render p)))

/-- `convert_datasets(selection_data, output_path, input_path, format,
verbose)`: runs the `try` body and wraps any exception raised inside it
into the single `click.ClickException(f"Conversion failed: {e}")`.
`verbose` only affects console output, which is not in the trace. -/
def convert_datasets (fs : FS) (conv : ConverterBehavior)
    (selection_data : SelectionDocument) (output_path : FPath)
    (input_path : Option FPath) (format : String) (verbose : Bool) :
    List Event × Option Exn :=
  let inner := convert_datasets_inner fs conv selection_data output_path input_path format
  match inner.2 with
  | none => (inner.1, none)
  | some e => (inner.1, some (.clickException ("Conversion failed: " ++ e.message)))

/-- `validate_output_path(output_path)`: read-only check that the parent
directory exists and is writable; returns the path unchanged. The
surrounding `try` re-raises `ClickException` unchanged and can only wrap
exceptions that the pure model cannot produce. -/
def validate_output_path (fs : FS) (output_path : FPath) : Except Exn FPath :=
  let path := output_path
  let parent := FPath.parent path
  if fs.dirExists parent = false then
    .error (.clickException ("Parent directory does not exist: " ++ FPath.render parent))
  else if fs.writable parent = false then
    .error (.clickException ("No write permission for directory: " ++ FPath.render parent))
  else
    .ok path

/-- Python `format.lower()`, character by character. The format names the
registry holds are ASCII, which `Char.toLower` covers. -/
def strLower (s : String) : String := ⟨s.data.map Char.toLower⟩

/-- `validate_format(format)`: lowercase, then membership in
`get_supported_formats()`. -/
def validate_format (format : String) : Except Exn String :=
  let format_lower := strLower format
  let supported := get_supported_formats
  if format_lower ∈ supported then .ok format_lower
  else .error (.clickException ("Unsupported format \x27" ++ format ++
    "\x27. Supported formats: " ++ String.intercalate ", " supported))

/-- The value of the exact fraction `a / b` rounded to the nearest
integer, ties to even: the primitive both IEEE-754 division and Python's
fixed-point float formatting are built on. -/
def divRoundHalfEven (a b : ℕ) : ℕ :=
  let q := a / b
  let r := a % b
  if 2 * r < b then q
  else if b < 2 * r then q + 1
  else if q % 2 = 0 then q else q + 1

/-- Floor of the base-2 logarithm, with an explicit fuel argument so the
recursion is structural (the fuel only ever needs to cover the number of
halvings). -/
def log2fuel : ℕ → ℕ → ℕ
  | 0, _ => 0
  | fuel + 1, n => if n < 2 then 0 else log2fuel fuel (n / 2) + 1

/-- The floor of `log2 n` for `n ≥ 1` (and `0` at `0`). -/
def natLog2 (n : ℕ) : ℕ := log2fuel n n

/-- Correctly rounded IEEE-754 binary64 division of non-negative
integers: `floatDivDyadic a b` is the double `fl(a / b)` (`b ≥ 1`),
returned as a pair `(m, k)` whose exact value is `m / 2^k`. Steps: locate
`e = ⌊log2 (a / b)⌋` (the candidate `natLog2 a - natLog2 b`, corrected
downward by one when `2^(la - lb)` exceeds `a / b`), scale the quotient
so it lies in `[2^52, 2^53]`, and round to nearest, ties to even —
exactly the IEEE rounding of the true quotient to a 53-bit significand.
The exponent limits of binary64 are not modelled (no overflow to
infinity, no subnormals): every quantity the theorems below apply this to
stays far inside the normal range. -/
def floatDivDyadic (a b : ℕ) : ℕ × ℕ :=
  if a = 0 then (0, 52)
  else
    let la := natLog2 a
    let lb := natLog2 b
    let fits : Bool :=
      if lb ≤ la then decide (b * 2 ^ (la - lb) ≤ a)
      else decide (b ≤ a * 2 ^ (lb - la))
    let e : ℤ := if fits then (la : ℤ) - lb else (la : ℤ) - lb - 1
    let s : ℤ := 52 - e
    if 0 ≤ s then (divRoundHalfEven (a * 2 ^ s.toNat) b, s.toNat)
    else (divRoundHalfEven a (b * 2 ^ (-s).toNat) * 2 ^ (-s).toNat, 0)

/-- Python `f"{x:.1f}"` of the double `(m, k)` (exact value `m / 2^k`):
round that exact value times 10 to the nearest integer — ties to even,
which is what rounding the double's exact decimal expansion does — and
print with one decimal digit. -/
def formatFixed1Float (d : ℕ × ℕ) : String :=
  let scaled := divRoundHalfEven (d.1 * 10) (2 ^ d.2)
  toString (scaled / 10) ++ "." ++ toString (scaled % 10)

/-- Python `f"{x:.0f}"` of the double `(m, k)`. -/
def formatFixed0Float (d : ℕ × ℕ) : String :=
  toString (divRoundHalfEven d.1 (2 ^ d.2))

/-- `estimate_conversion_time(selection_data)`: reads
`metadata.total_frames`; `if total_frames:` is false both when the key is
absent (`None`) and when it is `0`, in which case the function returns
`None`. Otherwise `estimated_seconds = total_frames / 1000` is the IEEE
binary64 quotient, modelled exactly by `floatDivDyadic`; the minutes and
hours strings format the doubles `estimated_seconds / 60` and
`estimated_seconds / 3600` (a second correctly rounded division on the
stored double). The comparisons `estimated_seconds < 60` and
`estimated_seconds < 3600` are written as the integer comparisons
`total_frames < 60 * 1000` / `total_frames < 3600 * 1000`, which agree
with the float comparisons at every integer `total_frames`: the
boundaries 60 and 3600 are exactly representable, rounding is monotone,
and the true quotient `total_frames / 1000` is never closer to a boundary
than `1/1000` without equalling it, far more than half an ulp away. -/
def estimate_conversion_time (selection_data : SelectionDocument) : Option String :=
  let metadata := selection_data.metadata.getD ⟨none, none⟩
  match metadata.total_frames with
  | none => none
  | some total_frames =>
    if total_frames = 0 then none
    else
      let estimated_seconds := floatDivDyadic total_frames 1000
      if total_frames < 60 * 1000 then
        some ("~" ++ formatFixed0Float estimated_seconds ++ " seconds")
      else if total_frames < 3600 * 1000 then
        some ("~" ++ formatFixed1Float
          (floatDivDyadic estimated_seconds.1 (60 * 2 ^ estimated_seconds.2)) ++ " minutes")
      else
        some ("~" ++ formatFixed1Float
          (floatDivDyadic estimated_seconds.1 (3600 * 2 ^ estimated_seconds.2)) ++ " hours")

/-- Predicate picking converter-invocation events out of a trace. -/
def Event.isConvertCall : Event → Bool
  | .convertCall _ _ _ _ => true
  | _ => false

/-- Predicate picking directory-removal events out of a trace. -/
def Event.isRemoveTree : Event → Bool
  | .removeTree _ => true
  | _ => false

/-- The converter invocations of a trace, in order. -/
def convertCalls (events : List Event) : List Event :=
  events.filter Event.isConvertCall

/-- The invocation event a well-formed dataset entry gives rise to. -/
def entryCall (input_dir output_dir : FPath) (d : DatasetEntry) : Event :=
  .convertCall (d.repo_id.getD "") (d.selected_videos.getD []) input_dir output_dir

/-- Both required keys are present in the entry. -/
def wellFormedEntry (d : DatasetEntry) : Bool :=
  d.repo_id.isSome && d.selected_videos.isSome

/-- The converter collaborator honours its result contract on every call:
it returns a result dict rather than raising. The `status` of the result
is unconstrained. -/
def alwaysReturns (conv : ConverterBehavior) : Prop :=
  ∀ k r v i o, ∃ res, conv k r v i o = ConvOutcome.returns res

/-- The input directory a run resolves: `temp_downloads` under the output
directory when no input path is given, else the given path. -/
def resolvedInputDir (output_path : FPath) : Option FPath → FPath
  | none => output_path ++ ["temp_downloads"]
  | some p => p

/-- The input-path check of the run passes: either no input path is given
(download branch) or the given directory exists. -/
def inputResolves (fs : FS) : Option FPath → Prop
  | none => True
  | some p => fs.dirExists p = true

theorem process_datasets_complete
    (conv : ConverterBehavior) (format : String) (input_dir output_dir : FPath)
    (k : ConverterKind) (hfmt : get_converter format = .ok k)
    (hconv : alwaysReturns conv) :
    ∀ ds : List DatasetEntry, ds.all wellFormedEntry = true →
      process_datasets conv format input_dir output_dir ds
        = (ds.map (entryCall input_dir output_dir), none) := by
  intro ds
  induction ds with
  | nil => intro _; rfl
  | cons d rest ih =>
    intro hall
    rw [List.all_cons, Bool.and_eq_true] at hall
    obtain ⟨hd, hrest⟩ := hall
    rw [wellFormedEntry, Bool.and_eq_true, Option.isSome_iff_exists,
      Option.isSome_iff_exists] at hd
    obtain ⟨⟨repo, hr⟩, videos, hv⟩ := hd
    obtain ⟨res, hres⟩ := hconv k repo videos input_dir output_dir
    simp only [process_datasets, hr, hv, hfmt, hres, ih hrest, List.map_cons,
      entryCall, Option.getD_some]

theorem process_datasets_unsupported
    (conv : ConverterBehavior) (format : String) (i o : FPath) (e : Exn)
    (hfmt : get_converter format = .error e)
    (d : DatasetEntry) (rest : List DatasetEntry)
    (hd : wellFormedEntry d = true) :
    process_datasets conv format i o (d :: rest) = ([], some e) := by
  rw [wellFormedEntry, Bool.and_eq_true, Option.isSome_iff_exists,
    Option.isSome_iff_exists] at hd
  obtain ⟨⟨repo, hr⟩, videos, hv⟩ := hd
  simp only [process_datasets, hr, hv, hfmt]

theorem process_datasets_malformed
    (conv : ConverterBehavior) (format : String) (i o : FPath)
    (k : ConverterKind) (hfmt : get_converter format = .ok k)
    (hconv : alwaysReturns conv) (bad : DatasetEntry)
    (hbad : bad.repo_id = none ∨ bad.selected_videos = none)
    (post : List DatasetEntry) :
    ∀ pre : List DatasetEntry, pre.all wellFormedEntry = true →
      ∃ key, (key = "repo_id" ∨ key = "selected_videos") ∧
        process_datasets conv format i o (pre ++ bad :: post)
          = (pre.map (entryCall i o), some (.keyError key)) := by
  intro pre
  induction pre with
  | nil =>
    intro _
    cases hr : bad.repo_id with
    | none =>
      exact ⟨"repo_id", Or.inl rfl, by simp only [List.nil_append, List.map_nil,
        process_datasets, hr]⟩
    | some repo =>
      cases hv : bad.selected_videos with
      | none =>
        exact ⟨"selected_videos", Or.inr rfl, by simp only [List.nil_append,
          List.map_nil, process_datasets, hr, hv]⟩
      | some videos =>
        cases hbad with
        | inl h => rw [h] at hr; cases hr
        | inr h => rw [h] at hv; cases hv
  | cons d rest ih =>
    intro hall
    rw [List.all_cons, Bool.and_eq_true] at hall
    obtain ⟨hd, hrest⟩ := hall
    obtain ⟨key, hkey, hproc⟩ := ih hrest
    rw [wellFormedEntry, Bool.and_eq_true, Option.isSome_iff_exists,
      Option.isSome_iff_exists] at hd
    obtain ⟨⟨repo, hr⟩, videos, hv⟩ := hd
    obtain ⟨res, hres⟩ := hconv k repo videos i o
    refine ⟨key, hkey, ?_⟩
    simp only [List.cons_append, process_datasets, hr, hv, hfmt, hres,
      List.map_cons, entryCall, Option.getD_some]
    rw [show List.append rest (bad :: post) = rest ++ bad :: post from rfl, hproc]

theorem process_datasets_events
    (conv : ConverterBehavior) (format : String) (i o : FPath) :
    ∀ ds : List DatasetEntry,
      ∀ e ∈ (process_datasets conv format i o ds).1,
        ∃ r v, e = Event.convertCall r v i o := by
  intro ds
  induction ds with
  | nil => intro e he; cases he
  | cons d rest ih =>
    intro e he
    cases hr : d.repo_id with
    | none => rw [process_datasets, hr] at he; cases he
    | some repo =>
      cases hv : d.selected_videos with
      | none => rw [process_datasets, hr, hv] at he; cases he
      | some videos =>
        cases hk : get_converter format with
        | error err => rw [process_datasets, hr, hv, hk] at he; cases he
        | ok kind =>
          cases hc : conv kind repo videos i o with
          | raises m =>
            simp only [process_datasets, hr, hv, hk, hc, List.mem_singleton] at he
            exact ⟨repo, videos, he⟩
          | returns res =>
            simp only [process_datasets, hr, hv, hk, hc, List.mem_cons] at he
            cases he with
            | inl h => exact ⟨repo, videos, h⟩
            | inr h => exact ih e h

theorem convertCalls_cons_mkdir (p : FPath) (l : List Event) :
    convertCalls (Event.mkdir p :: l) = convertCalls l := by
  simp [convertCalls, List.filter_cons, Event.isConvertCall]

theorem convertCalls_map_entryCall (i o : FPath) (ds : List DatasetEntry) :
    convertCalls (ds.map (entryCall i o)) = ds.map (entryCall i o) := by
  induction ds with
  | nil => rfl
  | cons d rest ih =>
    simp only [List.map_cons, convertCalls, List.filter_cons] at *
    rw [show Event.isConvertCall (entryCall i o d) = true from rfl]
    simp only [if_true, ih]

theorem convert_datasets_run_complete
    (fs : FS) (conv : ConverterBehavior) (doc : SelectionDocument)
    (out : FPath) (input : Option FPath) (format : String) (verbose : Bool)
    (k : ConverterKind) (ds : List DatasetEntry)
    (hds : doc.datasets = some ds)
    (hwf : ds.all wellFormedEntry = true)
    (hfmt : get_converter format = .ok k)
    (hconv : alwaysReturns conv)
    (hinput : inputResolves fs input) :
    convert_datasets fs conv doc out input format verbose
      = (Event.mkdir out :: ds.map (entryCall (resolvedInputDir out input) out), none) := by
  cases input with
  | none =>
    simp only [convert_datasets, convert_datasets_inner, hds, Option.getD_some,
      process_datasets_complete conv format (out ++ ["temp_downloads"]) out k hfmt hconv ds hwf,
      resolvedInputDir]
  | some p =>
    have hp : fs.dirExists p = true := hinput
    simp only [convert_datasets, convert_datasets_inner, hp, if_true, hds, Option.getD_some,
      process_datasets_complete conv format p out k hfmt hconv ds hwf,
      resolvedInputDir]

theorem convert_datasets_events_eq
    (fs : FS) (conv : ConverterBehavior) (doc : SelectionDocument)
    (out : FPath) (input : Option FPath) (format : String) (verbose : Bool) :
    (convert_datasets fs conv doc out input format verbose).1
      = (convert_datasets_inner fs conv doc out input format).1 := by
  rw [convert_datasets]
  cases (convert_datasets_inner fs conv doc out input format).2 <;> rfl

/-- Concrete filesystem for witnesses: every directory exists and is
writable. -/
def sampleFS : FS := ⟨fun _ => true, fun _ => true⟩

/-- Concrete converter behaviour for witnesses: every call returns an ok
result. -/
def sampleConvOk : ConverterBehavior := fun _ _ _ _ _ => .returns ⟨"ok", "done", some 2⟩

/-- Concrete converter behaviour for witnesses: every call returns a
result with status "error". -/
def sampleConvErr : ConverterBehavior := fun _ _ _ _ _ => .returns ⟨"error", "failed", none⟩

/-- Two well-formed dataset entries. -/
def sampleEntries : List DatasetEntry := [⟨some "a", some ["x"]⟩, ⟨some "b", some ["y"]⟩]

/-- A selection document holding `sampleEntries`. -/
def sampleDoc : SelectionDocument := ⟨some ⟨some 3, some 1997⟩, some sampleEntries⟩

/-- Claim C1: for every selection document whose `datasets` field is a
sequence of N entries, each having `repo_id` and `selected_videos`, and a
converter whose `convert_dataset` always returns a result, a run of
`convert_datasets` (with the format resolving to a converter and the
input path resolving) performs exactly the N `convert_dataset`
invocations, one per entry, in document order, each passing that entry's
`repo_id` and `selected_videos`. -/
theorem C1_convert_calls_once_per_dataset_in_order
    (fs : FS) (conv : ConverterBehavior) (doc : SelectionDocument)
    (out : FPath) (input : Option FPath) (format : String) (verbose : Bool)
    (k : ConverterKind) (ds : List DatasetEntry)
    (hds : doc.datasets = some ds)
    (hwf : ds.all wellFormedEntry = true)
    (hfmt : get_converter format = .ok k)
    (hconv : alwaysReturns conv)
    (hinput : inputResolves fs input) :
    convertCalls (convert_datasets fs conv doc out input format verbose).1
      = ds.map (entryCall (resolvedInputDir out input) out) := by
  rw [convert_datasets_run_complete fs conv doc out input format verbose k ds
    hds hwf hfmt hconv hinput]
  rw [show (Event.mkdir out :: ds.map (entryCall (resolvedInputDir out input) out),
      (none : Option Exn)).1
    = Event.mkdir out :: ds.map (entryCall (resolvedInputDir out input) out) from rfl]
  rw [convertCalls_cons_mkdir, convertCalls_map_entryCall]

/-- Witness for C1 at a concrete two-entry document. -/
theorem C1_witness :
    convertCalls (convert_datasets sampleFS sampleConvOk sampleDoc
        ["out"] (some ["in"]) "droid" false).1
      = [Event.convertCall "a" ["x"] ["in"] ["out"],
         Event.convertCall "b" ["y"] ["in"] ["out"]] :=
  (C1_convert_calls_once_per_dataset_in_order sampleFS sampleConvOk sampleDoc
    ["out"] (some ["in"]) "droid" false ConverterKind.droid sampleEntries
    rfl (by decide) rfl (fun _ _ _ _ _ => ⟨⟨"ok", "done", some 2⟩, rfl⟩) rfl).trans
    (by decide)

/-- Claim C2: a per-dataset result with `status == "error"` does not raise
and does not stop the loop: for every document of well-formed entries and
every converter that returns results (with any statuses, including
"error" anywhere), the run completes without error and every entry's
converter call is still made. -/
theorem C2_error_status_does_not_abort
    (fs : FS) (conv : ConverterBehavior) (doc : SelectionDocument)
    (out : FPath) (input : Option FPath) (format : String) (verbose : Bool)
    (k : ConverterKind) (ds : List DatasetEntry)
    (hds : doc.datasets = some ds)
    (hwf : ds.all wellFormedEntry = true)
    (hfmt : get_converter format = .ok k)
    (hconv : alwaysReturns conv)
    (hinput : inputResolves fs input) :
    (convert_datasets fs conv doc out input format verbose).2 = none
    ∧ (convertCalls (convert_datasets fs conv doc out input format verbose).1).length
        = ds.length := by
  rw [convert_datasets_run_complete fs conv doc out input format verbose k ds
    hds hwf hfmt hconv hinput]
  constructor
  · rfl
  · rw [show (Event.mkdir out :: ds.map (entryCall (resolvedInputDir out input) out),
        (none : Option Exn)).1
      = Event.mkdir out :: ds.map (entryCall (resolvedInputDir out input) out) from rfl]
    rw [convertCalls_cons_mkdir, convertCalls_map_entryCall, List.length_map]

/-- Witness for C2: every converter call returns status "error", yet the
run completes and both entries are processed. -/
theorem C2_witness :
    (convert_datasets sampleFS sampleConvErr sampleDoc
        ["out"] (some ["in"]) "vjepa2-ac" false).2 = none
    ∧ (convertCalls (convert_datasets sampleFS sampleConvErr sampleDoc
        ["out"] (some ["in"]) "vjepa2-ac" false).1).length = sampleEntries.length :=
  C2_error_status_does_not_abort sampleFS sampleConvErr sampleDoc
    ["out"] (some ["in"]) "vjepa2-ac" false ConverterKind.vjepa2_ac sampleEntries
    rfl (by decide) rfl (fun _ _ _ _ _ => ⟨⟨"error", "failed", none⟩, rfl⟩) rfl

/-- Counterexample to claim C3: a run with the unsupported format "hdf5",
a well-formed one-entry document and an existing input directory. The
format never passes the registry check (the factory errors on "hdf5"),
yet the trace contains the creation of the output directory: the claim
that no directory is touched before the format is established as
supported — in particular that the output directory is never created for
an unsupported format — is false on the code. -/
theorem C3_counterexample :
    (get_converter "hdf5").isOk = false
    ∧ (convert_datasets sampleFS sampleConvOk sampleDoc ["out"] (some ["in"])
        "hdf5" false).2.isSome = true
    ∧ Event.mkdir ["out"] ∈ (convert_datasets sampleFS sampleConvOk sampleDoc
        ["out"] (some ["in"]) "hdf5" false).1 := by
  decide

/-- Claim C3 (amended): the creation of the output directory is the FIRST
event of every run, performed before any format check — the format is
only checked inside the per-dataset loop. In particular, when the format
is unsupported (and the document has at least one well-formed entry and
the input path resolves), the run fails with the wrapped error and no
converter is invoked, but the output directory has still been created. -/
theorem C3_amended_mkdir_before_format_check
    (fs : FS) (conv : ConverterBehavior) (doc : SelectionDocument)
    (out : FPath) (input : Option FPath) (format : String) (verbose : Bool)
    (e : Exn) (hfmt : get_converter format = .error e)
    (d : DatasetEntry) (rest : List DatasetEntry)
    (hds : doc.datasets = some (d :: rest))
    (hd : wellFormedEntry d = true)
    (hinput : inputResolves fs input) :
    (convert_datasets fs conv doc out input format verbose).1.head?
        = some (Event.mkdir out)
    ∧ (convert_datasets fs conv doc out input format verbose).2
        = some (.clickException ("Conversion failed: " ++ e.message))
    ∧ convertCalls (convert_datasets fs conv doc out input format verbose).1 = [] := by
  have hproc := process_datasets_unsupported conv format
    (resolvedInputDir out input) out e hfmt d rest hd
  cases input with
  | none =>
    rw [resolvedInputDir] at hproc
    simp only [convert_datasets, convert_datasets_inner, hds, Option.getD_some, hproc]
    refine ⟨?_, ?_, ?_⟩ <;> trivial
  | some p =>
    have hp : fs.dirExists p = true := hinput
    rw [resolvedInputDir] at hproc
    simp only [convert_datasets, convert_datasets_inner, hp, if_true, hds,
      Option.getD_some, hproc]
    refine ⟨?_, ?_, ?_⟩ <;> trivial

/-- Witness for the amended C3 at a concrete input. -/
theorem C3_amended_witness :
    (convert_datasets sampleFS sampleConvOk sampleDoc ["out"] (some ["in"])
        "hdf5" false).1.head? = some (Event.mkdir ["out"])
    ∧ (convert_datasets sampleFS sampleConvOk sampleDoc ["out"] (some ["in"])
        "hdf5" false).2
      = some (.clickException ("Conversion failed: " ++ Exn.message (.clickException
          "Unsupported format: hdf5. Supported formats: [\x27droid\x27, \x27vjepa2-ac\x27]")))
    ∧ convertCalls (convert_datasets sampleFS sampleConvOk sampleDoc ["out"]
        (some ["in"]) "hdf5" false).1 = [] :=
  C3_amended_mkdir_before_format_check sampleFS sampleConvOk sampleDoc
    ["out"] (some ["in"]) "hdf5" false
    (.clickException "Unsupported format: hdf5. Supported formats: [\x27droid\x27, \x27vjepa2-ac\x27]")
    rfl ⟨some "a", some ["x"]⟩ [⟨some "b", some ["y"]⟩] rfl (by decide) rfl

/-- Claim C4: a dataset entry lacking `repo_id` or `selected_videos`
makes the run fail (the `KeyError` — the spec's `MalformedSelection` —
is wrapped into the single top-level conversion failure) and aborts the
whole run: entries before the malformed one are processed, no later entry
is. -/
theorem C4_missing_field_aborts
    (fs : FS) (conv : ConverterBehavior) (doc : SelectionDocument)
    (out : FPath) (input : Option FPath) (format : String) (verbose : Bool)
    (k : ConverterKind) (pre post : List DatasetEntry) (bad : DatasetEntry)
    (hds : doc.datasets = some (pre ++ bad :: post))
    (hpre : pre.all wellFormedEntry = true)
    (hbad : bad.repo_id = none ∨ bad.selected_videos = none)
    (hfmt : get_converter format = .ok k)
    (hconv : alwaysReturns conv)
    (hinput : inputResolves fs input) :
    ∃ key, (key = "repo_id" ∨ key = "selected_videos")
      ∧ (convert_datasets fs conv doc out input format verbose).2
          = some (.clickException ("Conversion failed: " ++ Exn.message (.keyError key)))
      ∧ convertCalls (convert_datasets fs conv doc out input format verbose).1
          = pre.map (entryCall (resolvedInputDir out input) out) := by
  obtain ⟨key, hkey, hproc⟩ := process_datasets_malformed conv format
    (resolvedInputDir out input) out k hfmt hconv bad hbad post pre hpre
  refine ⟨key, hkey, ?_⟩
  cases input with
  | none =>
    rw [resolvedInputDir] at hproc
    simp only [convert_datasets, convert_datasets_inner, hds, Option.getD_some, hproc]
    refine ⟨by trivial, ?_⟩
    rw [convertCalls_cons_mkdir]
    exact convertCalls_map_entryCall (out ++ ["temp_downloads"]) out pre
  | some p =>
    have hp : fs.dirExists p = true := hinput
    rw [resolvedInputDir] at hproc
    simp only [convert_datasets, convert_datasets_inner, hp, if_true, hds,
      Option.getD_some, hproc]
    refine ⟨by trivial, ?_⟩
    rw [convertCalls_cons_mkdir]
    exact convertCalls_map_entryCall p out pre

/-- Witness for C4: the second of three entries lacks `selected_videos`;
the run fails wrapped and only the first entry was processed. -/
theorem C4_witness :
    ∃ key, (key = "repo_id" ∨ key = "selected_videos")
      ∧ (convert_datasets sampleFS sampleConvOk
          ⟨none, some [⟨some "a", some ["x"]⟩, ⟨some "bad", none⟩, ⟨some "c", some ["z"]⟩]⟩
          ["out"] (some ["in"]) "droid" false).2
          = some (.clickException ("Conversion failed: " ++ Exn.message (.keyError key)))
      ∧ convertCalls (convert_datasets sampleFS sampleConvOk
          ⟨none, some [⟨some "a", some ["x"]⟩, ⟨some "bad", none⟩, ⟨some "c", some ["z"]⟩]⟩
          ["out"] (some ["in"]) "droid" false).1
          = [⟨some "a", some ["x"]⟩].map (entryCall ["in"] ["out"]) :=
  C4_missing_field_aborts sampleFS sampleConvOk
    ⟨none, some [⟨some "a", some ["x"]⟩, ⟨some "bad", none⟩, ⟨some "c", some ["z"]⟩]⟩
    ["out"] (some ["in"]) "droid" false ConverterKind.droid
    [⟨some "a", some ["x"]⟩] [⟨some "c", some ["z"]⟩] ⟨some "bad", none⟩
    rfl (by decide) (Or.inr rfl) rfl
    (fun _ _ _ _ _ => ⟨⟨"ok", "done", some 2⟩, rfl⟩) rfl

/-- Claim C5: whatever happens inside `convert_datasets`, its outcome is
either success or exactly one top-level `ConversionFailed`-style
`click.ClickException` whose message wraps the original cause raised by
the `try` body; and when the document is structurally valid, the format
resolves, the input resolves and every converter call returns a result —
whatever its `status`, including "error" — no error is produced at all. -/
theorem C5_single_toplevel_wrap
    (fs : FS) (conv : ConverterBehavior) (doc : SelectionDocument)
    (out : FPath) (input : Option FPath) (format : String) (verbose : Bool) :
    ((convert_datasets fs conv doc out input format verbose).2 = none
      ∨ ∃ e : Exn,
          (convert_datasets_inner fs conv doc out input format).2 = some e
          ∧ (convert_datasets fs conv doc out input format verbose).2
            = some (.clickException ("Conversion failed: " ++ e.message)))
    ∧ (∀ (k : ConverterKind) (ds : List DatasetEntry),
        doc.datasets = some ds → ds.all wellFormedEntry = true →
        get_converter format = .ok k → alwaysReturns conv →
        inputResolves fs input →
        (convert_datasets fs conv doc out input format verbose).2 = none) := by
  constructor
  · cases h : (convert_datasets_inner fs conv doc out input format).2 with
    | none => left; rw [convert_datasets, h]
    | some e => right; exact ⟨e, rfl, by rw [convert_datasets, h]⟩
  · intro k ds hds hwf hfmt hconv hinput
    rw [convert_datasets_run_complete fs conv doc out input format verbose k ds
      hds hwf hfmt hconv hinput]

/-- Witness for C5: a structurally valid run (converter results all have
status "error") produces no top-level error. -/
theorem C5_witness :
    (convert_datasets sampleFS sampleConvErr sampleDoc ["base"] none "droid" false).2 = none :=
  (C5_single_toplevel_wrap sampleFS sampleConvErr sampleDoc ["base"] none "droid" false).2
    ConverterKind.droid sampleEntries rfl (by decide) rfl
    (fun _ _ _ _ _ => ⟨⟨"error", "failed", none⟩, rfl⟩) trivial

/-- Claim C6: `validate_format` returns the lowercased string when its
lowercasing is in the supported set `["droid", "vjepa2-ac"]` of
`get_supported_formats`, and otherwise fails with the
`UnsupportedFormat`-style error listing the valid options. -/
theorem C6_validate_format_spec (f : String) :
    get_supported_formats = ["droid", "vjepa2-ac"]
    ∧ (strLower f ∈ get_supported_formats → validate_format f = .ok (strLower f))
    ∧ (strLower f ∉ get_supported_formats →
        validate_format f = .error (.clickException
          ("Unsupported format \x27" ++ f ++ "\x27. Supported formats: "
            ++ String.intercalate ", " get_supported_formats)))
    ∧ String.intercalate ", " get_supported_formats = "droid, vjepa2-ac" := by
  refine ⟨rfl, ?_, ?_, by decide⟩
  · intro h
    simp only [validate_format]
    rw [if_pos h]
  · intro h
    simp only [validate_format]
    rw [if_neg h]

/-- Witness for C6 at a supported (case-insensitive) and an unsupported
format string. -/
theorem C6_witness :
    validate_format "DROID" = .ok (strLower "DROID")
    ∧ validate_format "hdf5" = .error (.clickException
        ("Unsupported format \x27hdf5\x27. Supported formats: "
          ++ String.intercalate ", " get_supported_formats)) :=
  ⟨(C6_validate_format_spec "DROID").2.1 (by decide),
   (C6_validate_format_spec "hdf5").2.2.1 (by decide)⟩

/-- Counterexample to claim C7: the document whose `metadata.total_frames`
is present and equal to `0`. The claim says a present `total_frames`
yields a duration string, but the code's `if total_frames:` is false at
`0`, so the function returns the absent value. -/
theorem C7_counterexample :
    ((SelectionDocument.mk (some ⟨none, some 0⟩) none).metadata.getD
        ⟨none, none⟩).total_frames = some 0
    ∧ estimate_conversion_time ⟨some ⟨none, some 0⟩, none⟩ = none :=
  ⟨rfl, rfl⟩

/-- Claim C7 (amended): `estimate_conversion_time` is a pure function of
`metadata.total_frames`. When `total_frames` is present and nonzero it
returns a duration string at 1000 frames/second — the seconds bucket when
the estimate is below 60 seconds (`total_frames < 60000`), the minutes
bucket below one hour, the hours bucket otherwise — formatted exactly as
Python formats the IEEE doubles it computes: `total_frames = 120000`
gives `"~2.0 minutes"`, and at the decimal ties the doubles sit slightly
off, `129000` gives `"~2.1 minutes"` and `3780000` gives `"~1.1 hours"`.
When `total_frames` is absent — or zero, which the code's truthiness test
treats like absent — it returns the absent value. The hours conjunct
carries an upper bound keeping the quotient inside binary64's normal
range, where the float model is exact (Python's float division raises
OverflowError near 1.8e308 seconds, which the model does not cover). -/
theorem C7_amended_estimate_buckets
    (doc : SelectionDocument) (n : ℕ)
    (h : ((doc.metadata.getD ⟨none, none⟩)).total_frames = some n) :
    (n = 0 → estimate_conversion_time doc = none)
    ∧ (0 < n → n < 60000 →
        estimate_conversion_time doc
          = some ("~" ++ formatFixed0Float (floatDivDyadic n 1000) ++ " seconds"))
    ∧ (60000 ≤ n → n < 3600000 →
        estimate_conversion_time doc
          = some ("~" ++ formatFixed1Float
              (floatDivDyadic (floatDivDyadic n 1000).1
                (60 * 2 ^ (floatDivDyadic n 1000).2)) ++ " minutes"))
    ∧ (3600000 ≤ n → n < 10 ^ 300 →
        estimate_conversion_time doc
          = some ("~" ++ formatFixed1Float
              (floatDivDyadic (floatDivDyadic n 1000).1
                (3600 * 2 ^ (floatDivDyadic n 1000).2)) ++ " hours"))
    ∧ (∀ d : SelectionDocument,
        ((d.metadata.getD ⟨none, none⟩)).total_frames = none →
        estimate_conversion_time d = none)
    ∧ estimate_conversion_time ⟨some ⟨none, some 120000⟩, none⟩ = some "~2.0 minutes"
    ∧ estimate_conversion_time ⟨some ⟨none, some 129000⟩, none⟩ = some "~2.1 minutes"
    ∧ estimate_conversion_time ⟨some ⟨none, some 3780000⟩, none⟩ = some "~1.1 hours" := by
  refine ⟨?_, ?_, ?_, ?_, ?_, by decide, by decide, by decide⟩
  · intro h0
    simp only [estimate_conversion_time, h]
    rw [if_pos h0]
  · intro hpos hlt
    simp only [estimate_conversion_time, h]
    rw [if_neg (by omega), if_pos (by omega)]
  · intro hge hlt
    simp only [estimate_conversion_time, h]
    rw [if_neg (by omega), if_neg (by omega), if_pos (by omega)]
  · intro hge hbound
    simp only [estimate_conversion_time, h]
    rw [if_neg (by omega), if_neg (by omega), if_neg (by omega)]
  · intro d hd
    simp only [estimate_conversion_time, hd]

/-- Witness for the amended C7 at `total_frames = 120000`. -/
theorem C7_amended_witness :
    estimate_conversion_time ⟨some ⟨none, some 120000⟩, none⟩
      = some ("~" ++ formatFixed1Float
          (floatDivDyadic (floatDivDyadic 120000 1000).1
            (60 * 2 ^ (floatDivDyadic 120000 1000).2)) ++ " minutes") :=
  (C7_amended_estimate_buckets ⟨some ⟨none, some 120000⟩, none⟩ 120000 rfl).2.2.1
    (by decide) (by decide)

/-- Claim C8: `validate_output_path` fails with the `InvalidPath`-style
error exactly when the parent directory does not exist or is not
writable, and otherwise returns the path unchanged — independently of
whether the target itself exists (the filesystem is only ever queried at
the parent). The embedding is a pure function of the read-only queries:
it performs no action and creates no directory. -/
theorem C8_validate_output_path_spec (fs : FS) (p : FPath) :
    (fs.dirExists (FPath.parent p) = true → fs.writable (FPath.parent p) = true →
      validate_output_path fs p = .ok p)
    ∧ (fs.dirExists (FPath.parent p) = false →
        validate_output_path fs p = .error (.clickException
          ("Parent directory does not exist: " ++ FPath.render (FPath.parent p))))
    ∧ (fs.dirExists (FPath.parent p) = true → fs.writable (FPath.parent p) = false →
        validate_output_path fs p = .error (.clickException
          ("No write permission for directory: " ++ FPath.render (FPath.parent p)))) := by
  refine ⟨?_, ?_, ?_⟩
  · intro h1 h2
    simp [validate_output_path, h1, h2]
  · intro h1
    simp [validate_output_path, h1]
  · intro h1 h2
    simp [validate_output_path, h1, h2]

/-- Concrete filesystem for the C8 witness: no directory exists. -/
def sampleFSNoParent : FS := ⟨fun _ => false, fun _ => true⟩

/-- Witness for C8: an all-permissive filesystem accepts the path, a
filesystem without the parent rejects it. -/
theorem C8_witness :
    validate_output_path sampleFS ["base", "out"] = .ok ["base", "out"]
    ∧ validate_output_path sampleFSNoParent ["base", "out"]
        = .error (.clickException ("Parent directory does not exist: "
            ++ FPath.render (FPath.parent ["base", "out"]))) :=
  ⟨(C8_validate_output_path_spec sampleFS ["base", "out"]).1 rfl rfl,
   (C8_validate_output_path_spec sampleFSNoParent ["base", "out"]).2.1 rfl⟩

/-- Counterexample to claim C9: a complete run with `input_path` absent.
The claim says that after all datasets are processed a cleanup of the
`temp_downloads` directory is performed so that it is removed; but the
full trace of the run contains no removal action at all — the code's
cleanup branch only prints a message when verbose. -/
theorem C9_counterexample :
    convert_datasets sampleFS sampleConvOk sampleDoc ["out"] none "droid" true
      = ([Event.mkdir ["out"],
          Event.convertCall "a" ["x"] ["out", "temp_downloads"] ["out"],
          Event.convertCall "b" ["y"] ["out", "temp_downloads"] ["out"]], none)
    ∧ (convert_datasets sampleFS sampleConvOk sampleDoc ["out"] none
        "droid" true).1.filter Event.isRemoveTree = [] := by
  decide

/-- Claim C9 (amended): when `input_path` is absent, the `temp_downloads`
subdirectory of the output path is designated as the run's temporary
download directory — every converter invocation receives it as its input
directory — but no removal is ever performed: no event of any such run
removes anything. The cleanup branch of the code only logs when verbose;
the directory is never created either, the download step being a stub. -/
theorem C9_amended_temp_downloads_never_removed
    (fs : FS) (conv : ConverterBehavior) (doc : SelectionDocument)
    (out : FPath) (format : String) (verbose : Bool) :
    (∀ e ∈ (convert_datasets fs conv doc out none format verbose).1,
        Event.isRemoveTree e = false)
    ∧ (∀ r v i o,
        Event.convertCall r v i o
            ∈ (convert_datasets fs conv doc out none format verbose).1 →
        i = out ++ ["temp_downloads"]) := by
  have heq : (convert_datasets fs conv doc out none format verbose).1
      = Event.mkdir out :: (process_datasets conv format (out ++ ["temp_downloads"]) out
          (doc.datasets.getD [])).1 := by
    rw [convert_datasets_events_eq]
    rfl
  constructor
  · intro e he
    rw [heq] at he
    cases he with
    | head => rfl
    | tail _ h =>
      obtain ⟨r, v, hrv⟩ := process_datasets_events conv format
        (out ++ ["temp_downloads"]) out (doc.datasets.getD []) e h
      rw [hrv]
      rfl
  · intro r v i o hmem
    rw [heq] at hmem
    cases hmem with
    | tail _ h =>
      obtain ⟨r2, v2, he⟩ := process_datasets_events conv format
        (out ++ ["temp_downloads"]) out (doc.datasets.getD [])
        (Event.convertCall r v i o) h
      rw [Event.convertCall.injEq] at he
      exact he.2.2.1

/-- Witness for the amended C9 at a concrete run: the mkdir event is not a
removal, and a converter invocation of the run received the
`temp_downloads` subdirectory. -/
theorem C9_amended_witness :
    Event.isRemoveTree (Event.mkdir ["out"]) = false
    ∧ (["out", "temp_downloads"] : FPath) = ["out"] ++ ["temp_downloads"] :=
  ⟨(C9_amended_temp_downloads_never_removed sampleFS sampleConvOk sampleDoc
      ["out"] "droid" true).1 (Event.mkdir ["out"]) (by decide),
   (C9_amended_temp_downloads_never_removed sampleFS sampleConvOk sampleDoc
      ["out"] "droid" true).2 "a" ["x"] ["out", "temp_downloads"] ["out"] (by decide)⟩

/-- Claim C10: the default of the `format` parameter is "hdf5", which is
not in `get_supported_formats()`; a run on a document with at least one
well-formed dataset entry and an existing input path, invoked with the
default format, fails with the wrapped top-level error and never invokes
any converter. -/
theorem C10_default_format_unsupported
    (fs : FS) (conv : ConverterBehavior) (doc : SelectionDocument)
    (out p : FPath) (verbose : Bool)
    (d : DatasetEntry) (rest : List DatasetEntry)
    (hds : doc.datasets = some (d :: rest))
    (hd : wellFormedEntry d = true)
    (hp : fs.dirExists p = true) :
    convert_datasets_default_format = "hdf5"
    ∧ "hdf5" ∉ get_supported_formats
    ∧ (convert_datasets fs conv doc out (some p)
        convert_datasets_default_format verbose).2
        = some (.clickException
          "Conversion failed: Unsupported format: hdf5. Supported formats: [\x27droid\x27, \x27vjepa2-ac\x27]")
    ∧ convertCalls (convert_datasets fs conv doc out (some p)
        convert_datasets_default_format verbose).1 = [] := by
  have hfmt : get_converter convert_datasets_default_format
      = .error (.clickException
        "Unsupported format: hdf5. Supported formats: [\x27droid\x27, \x27vjepa2-ac\x27]") := by
    decide
  have hproc := process_datasets_unsupported conv convert_datasets_default_format
    p out _ hfmt d rest hd
  refine ⟨rfl, by decide, ?_, ?_⟩
  · simp only [convert_datasets, convert_datasets_inner, hp, if_true, hds,
      Option.getD_some, hproc]
    trivial
  · simp only [convert_datasets, convert_datasets_inner, hp, if_true, hds,
      Option.getD_some, hproc]
    rw [convertCalls_cons_mkdir]
    rfl

/-- Witness for C10 at a concrete run invoked with the default format. -/
theorem C10_witness :
    convert_datasets_default_format = "hdf5"
    ∧ "hdf5" ∉ get_supported_formats
    ∧ (convert_datasets sampleFS sampleConvOk sampleDoc ["out"] (some ["in"])
        convert_datasets_default_format false).2
        = some (.clickException
          "Conversion failed: Unsupported format: hdf5. Supported formats: [\x27droid\x27, \x27vjepa2-ac\x27]")
    ∧ convertCalls (convert_datasets sampleFS sampleConvOk sampleDoc ["out"]
        (some ["in"]) convert_datasets_default_format false).1 = [] :=
  C10_default_format_unsupported sampleFS sampleConvOk sampleDoc ["out"] ["in"] false
    ⟨some "a", some ["x"]⟩ [⟨some "b", some ["y"]⟩] rfl (by decide) rfl
